import Mathlib

/-!
Verification of the pyramid-puzzle path validator (`game_validator.py`).

The definitions below are a shallow embedding of the Python source:
`parse_tile`, `is_valid_move`, `calculate_mp_cost`, `parse_path`,
`validate_path` (its action loop is `stepAction` / `runActions`) and
`validate_puzzle_solution`, together with the mutable `GameState`
rendered as explicit state passing.  Strings are Lean `String`s;
the character class `[A-E]` of the tile regex is spelled as the explicit
five-letter membership test, and `\d` is the ASCII digit test.
-/

deriving instance DecidableEq for Except

namespace PyramidBench

/-- Error kinds raised by tile parsing.  The Python code raises `ValueError`
with three distinct messages (bad format, unknown level, out-of-range
number); every caller discards the message text, so only the kind matters. -/
inductive TileError where
  | invalidFormat
  | invalidLevel
  | invalidRange
deriving DecidableEq, Repr

/-- The `LEVEL_MAX` dictionary: capacity of each pyramid level. -/
def LEVEL_MAX (c : Char) : Option Nat :=
  if c = 'A' then some 1
  else if c = 'B' then some 4
  else if c = 'C' then some 8
  else if c = 'D' then some 16
  else if c = 'E' then some 32
  else none

/-- The regex character class `[A-E]`. -/
def isTileLevel (c : Char) : Bool :=
  c = 'A' || c = 'B' || c = 'C' || c = 'D' || c = 'E'

/-- Decimal value of a digit string, as computed by Python `int` on a
string of ASCII digits. -/
def digitsVal (ds : List Char) : Nat :=
  ds.foldl (fun acc d => acc * 10 + (d.toNat - 48)) 0

/-- The part of the text after the level letter that the digit test of
`^[A-E]\d+$` applies to: `re.match`'s `$` (without `re.MULTILINE`) matches
at the end of the string or just before one final newline, so exactly one
trailing `'\n'` is tolerated and excluded from the digit run. -/
def pyBody (rest : List Char) : List Char :=
  if rest.getLast? = some '\n' then rest.dropLast else rest

/-- `GameValidator.parse_tile`: regex check `^[A-E]\d+$` under `re.match`
(one level letter, one or more digits, optionally one trailing newline —
see `pyBody`; `\d` is modelled as the ASCII digits, the fragment of
Python's Unicode-aware `\d` that the characterization theorem below is
scoped to), then level lookup in `LEVEL_MAX` (the `Invalid level` branch,
unreachable after the regex), then the range check
`number < 1 or number > LEVEL_MAX[level]`.  `int(tile_str[1:])` strips
the trailing newline, so the value is the digit run's value. -/
def parseTileL : List Char → Except TileError (Char × Nat)
  | level :: rest =>
    let body := pyBody rest
    if isTileLevel level && (!body.isEmpty && body.all Char.isDigit) then
      let number := digitsVal body
      if (LEVEL_MAX level).isNone then Except.error TileError.invalidLevel
      else
        let cap := (LEVEL_MAX level).getD 0
        if number < 1 || number > cap then Except.error TileError.invalidRange
        else Except.ok (level, number)
    else Except.error TileError.invalidFormat
  | _ => Except.error TileError.invalidFormat

/-- String-level wrapper for `parse_tile`. -/
def parse_tile (tile_str : String) : Except TileError (Char × Nat) :=
  parseTileL tile_str.toList

/-- `GameValidator.is_valid_move`: classify a transition between two tile
strings, returning (valid, move_type, base_cost).  Character arithmetic
`ord(x) - 1` is `Char.toNat` arithmetic (codepoints are at least 65 here,
and parsed indices are at least 1, so `Nat` subtraction agrees with
Python's integers). -/
def is_valid_move (from_tile to_tile : String) : Bool × String × Nat :=
  match parse_tile from_tile, parse_tile to_tile with
  | Except.ok (from_level, from_num), Except.ok (to_level, to_num) =>
    let level_max := (LEVEL_MAX from_level).getD 0
    if from_level = to_level ∧
        ((from_num < level_max ∧ to_num = from_num + 1) ∨
         (from_num = level_max ∧ to_num = 1)) then
      (true, "clockwise", 1)
    else if from_level = to_level ∧
        ((from_num > 1 ∧ to_num = from_num - 1) ∨
         (from_num = 1 ∧ to_num = level_max)) then
      (true, "counter_clockwise", 1)
    else if to_level.toNat = from_level.toNat - 1 ∧ to_num = (from_num + 1) / 2 then
      (true, "inward", 2)
    else if to_level.toNat = from_level.toNat + 1 ∧ to_num = 2 * from_num - 1 then
      (true, "outward_left", 1)
    else if to_level.toNat = from_level.toNat + 1 ∧ to_num = 2 * from_num then
      (true, "outward_right", 1)
    else if from_tile = "A1" ∧ to_level = 'B' then
      (true, "outward_from_peak", 1)
    else if from_level = 'B' ∧ to_tile = "A1" then
      (true, "inward_to_peak", 2)
    else
      (false, "invalid_move", 0)
  | _, _ => (false, "invalid_tile", 0)

/-- `GameValidator.calculate_mp_cost`: the `base_costs` dictionary lookup
with default 0, then the ladder discount for inward-directed moves. -/
def calculate_mp_cost (move_type : String) (has_ladder : Bool) : Nat :=
  let cost :=
    if move_type = "clockwise" then 1
    else if move_type = "counter_clockwise" then 1
    else if move_type = "outward_left" then 1
    else if move_type = "outward_right" then 1
    else if move_type = "outward_from_peak" then 1
    else if move_type = "inward" then 2
    else if move_type = "inward_to_peak" then 2
    else 0
  if has_ladder ∧ (move_type = "inward" ∨ move_type = "inward_to_peak") then 1
  else cost

/-- An action parsed from one path token. -/
inductive Action where
  | move (tile : String)
  | collect (tile : String) (item : String)
  | clear (tile : String)
deriving DecidableEq, Repr

/-- Python `str.split(sep)` for a one-character separator: every occurrence
splits, the empty string yields one empty field. -/
def pySplit (sep : Char) : List Char → List (List Char)
  | [] => [[]]
  | c :: rest =>
    match pySplit sep rest with
    | [] => [[c]]
    | g :: gs => if c = sep then [] :: g :: gs else (c :: g) :: gs

/-- ASCII whitespace stripped by Python `str.strip()`. -/
def isPySpace (c : Char) : Bool :=
  c = ' ' || c = '\t' || c = '\n' || c = '\x0b' || c = '\x0c' || c = '\r'

/-- Python `str.strip()` (restricted to ASCII whitespace). -/
def pyStrip (cs : List Char) : List Char :=
  ((cs.dropWhile isPySpace).reverse.dropWhile isPySpace).reverse

/-- Python `element.split(":", 1)` for an element known to contain a colon:
the part before the first colon and the part after it. -/
def splitOnceColon : List Char → List Char × List Char
  | [] => ([], [])
  | c :: rest =>
    if c = ':' then ([], rest)
    else
      let p := splitOnceColon rest
      (c :: p.1, p.2)

/-- One iteration of the `parse_path` loop body: strip the element, then
dispatch on colon / `clear:` prefix exactly as the source does. -/
def parseElement (e : List Char) : Action :=
  let t := pyStrip e
  if t.contains ':' then
    if ('c' :: 'l' :: 'e' :: 'a' :: 'r' :: ':' :: []).isPrefixOf t then
      Action.clear (String.mk (t.drop 6))
    else
      let p := splitOnceColon t
      Action.collect (String.mk p.1) (String.mk p.2)
  else Action.move (String.mk t)

/-- `GameValidator.parse_path`: only the empty string raises
(`"Empty path"`); otherwise each pipe-separated element becomes an action
with no further validation. -/
def parse_path (path_str : String) : Except String (List Action) :=
  if path_str = "" then Except.error "Empty path"
  else Except.ok ((pySplit '|' path_str.toList).map parseElement)

/-- The scenario configuration as read by `validate_path`: the extracted
blocked tile names, the (type, location) collectible pairs, and the
optional `solution.optimal_mp`.  The `requires` list appears in the
scenario schema but is never read by the code. -/
structure ScenarioConfig where
  blocked : List String
  collectibles : List (String × String)
  optimal_mp : Option Nat
  requires : List String
deriving DecidableEq, Repr

/-- The mutable `GameState` object.  `blocked_tiles` and `collected_items`
are Python sets, modelled as lists whose updates preserve set semantics
(membership tests, cons for add, filter for remove). -/
structure GameState where
  position : Option String
  collected_items : List String
  blocked_tiles : List String
  collectibles : List (String × String)
  has_ladder : Bool
  has_key : Bool
  dynamite_used : Bool
deriving DecidableEq, Repr

/-- Insertion into a Python dict rendered as an association list: a repeated
key keeps its first position but takes the last value. -/
def dictInsert (d : List (String × String)) (k v : String) : List (String × String) :=
  if d.any (fun p => p.1 == k) then
    d.map (fun p => if p.1 == k then (k, v) else p)
  else d ++ [(k, v)]

/-- The dict comprehension building `collectibles` from (type, location)
pairs. -/
def dictOf (l : List (String × String)) : List (String × String) :=
  l.foldl (fun d p => dictInsert d p.1 p.2) []

/-- `GameState.collect_item`: first uncollected item registered at `tile`
(in dict iteration order) is collected; the flags update (the Python
`elif` equals two independent tests since the two item names differ). -/
def GameState.collect_item (gs : GameState) (tile : String) :
    Option String × GameState :=
  match gs.collectibles.find? (fun p => p.2 == tile && !(gs.collected_items.contains p.1)) with
  | some (item_type, _) =>
    (some item_type,
      { gs with
        collected_items := item_type :: gs.collected_items
        has_ladder := if item_type = "ladder" then true else gs.has_ladder
        has_key := if item_type = "key" then true else gs.has_key })
  | none => (none, gs)

/-- `GameState.use_dynamite`: needs the dynamite collected, not yet used,
and the target currently blocked; then removes the target and burns the
one-shot flag. -/
def GameState.use_dynamite (gs : GameState) (target_tile : String) :
    Bool × GameState :=
  if gs.collected_items.contains "dynamite" && !gs.dynamite_used then
    if gs.blocked_tiles.contains target_tile then
      (true, { gs with
               blocked_tiles := gs.blocked_tiles.filter (fun x => x != target_tile)
               dynamite_used := true })
    else (false, gs)
  else (false, gs)

/-- The loop state of `validate_path`: the game state plus the local
variables `current_position` and `total_mp`. -/
structure LoopState where
  gs : GameState
  pos : Option String
  mp : Nat
deriving DecidableEq, Repr

/-- Python string interpolation of `current_position`, which prints `None`
for the null position. -/
def posStr : Option String → String
  | none => "None"
  | some t => t

/-- One iteration of the `validate_path` action loop at enumeration index
`i`; an early `return False, msg, total_mp` becomes `Except.error`. -/
def stepAction (i : Nat) (s : LoopState) (a : Action) :
    Except (String × Nat) LoopState :=
  match a with
  | Action.move tile =>
    if s.gs.blocked_tiles.contains tile then
      Except.error ("Cannot move to blocked tile " ++ tile ++ " at step " ++
        toString (i + 1), s.mp)
    else
      match s.pos with
      | none =>
        match parse_tile tile with
        | Except.ok (level, _) =>
          if level ≠ 'E' then
            Except.error ("Must start from E-level tile, not " ++ tile, s.mp)
          else Except.ok { s with pos := some tile }
        | Except.error _ =>
          Except.error ("Invalid starting tile: " ++ tile, s.mp)
      | some current =>
        match is_valid_move current tile with
        | (true, move_type, _) =>
          Except.ok { s with
            pos := some tile
            mp := s.mp + calculate_mp_cost move_type s.gs.has_ladder }
        | (false, _, _) =>
          Except.error ("Invalid move from " ++ current ++ " to " ++ tile ++
            " at step " ++ toString (i + 1), s.mp)
  | Action.collect tile item =>
    if s.pos ≠ some tile then
      Except.error ("Cannot collect " ++ item ++ " from " ++ tile ++
        " - not at that position (currently at " ++ posStr s.pos ++ ")", s.mp)
    else
      let r := s.gs.collect_item tile
      if r.1 ≠ some item then
        Except.error ("No " ++ item ++ " available at " ++ tile, s.mp)
      else Except.ok { s with gs := r.2 }
  | Action.clear target_tile =>
    let r := s.gs.use_dynamite target_tile
    if r.1 then Except.ok { s with gs := r.2 }
    else if !(s.gs.collected_items.contains "dynamite") then
      Except.error ("Cannot clear " ++ target_tile ++ " - no dynamite collected", s.mp)
    else if s.gs.dynamite_used then
      Except.error ("Cannot clear " ++ target_tile ++ " - dynamite already used", s.mp)
    else
      Except.error ("Cannot clear " ++ target_tile ++ " - tile not blocked", s.mp)

/-- The `for i, action in enumerate(actions)` loop of `validate_path`. -/
def runActions (actions : List Action) (i : Nat) (s : LoopState) :
    Except (String × Nat) LoopState :=
  match actions with
  | [] => Except.ok s
  | a :: rest =>
    match stepAction i s a with
    | Except.ok s' => runActions rest (i + 1) s'
    | Except.error e => Except.error e

/-- The fresh per-evaluation state built at the top of `validate_path`:
`GameState(blocked_tiles, collectibles)` plus `total_mp = 0` and
`current_position = None`. -/
def initState (cfg : ScenarioConfig) : LoopState :=
  { gs := { position := none
            collected_items := []
            blocked_tiles := cfg.blocked
            collectibles := dictOf cfg.collectibles
            has_ladder := false
            has_key := false
            dynamite_used := false }
    pos := none
    mp := 0 }

/-- `GameValidator.validate_path`: parse, replay the actions, then the
final apex and key checks. -/
def validate_path (path_str : String) (cfg : ScenarioConfig) :
    Bool × String × Nat :=
  match parse_path path_str with
  | Except.error msg => (false, "Path parsing error: " ++ msg, 0)
  | Except.ok actions =>
    match runActions actions 0 (initState cfg) with
    | Except.error e => (false, e.1, e.2)
    | Except.ok s =>
      if s.pos ≠ some "A1" then
        (false, "Path must end at A1, ended at " ++ posStr s.pos, s.mp)
      else if !s.gs.has_key then
        (false, "Must collect key before reaching A1", s.mp)
      else (true, "Path is valid", s.mp)

/-- The result dictionary of `validate_puzzle_solution`. -/
structure VResult where
  is_valid : Bool
  message : String
  total_mp : Nat
  optimal_mp : Option Nat
  is_optimal : Bool
deriving DecidableEq, Repr

/-- `validate_puzzle_solution`: wraps `validate_path` and computes
`is_optimal = (optimal_mp is not None and total_mp == optimal_mp) if
is_valid else False`. -/
def validate_puzzle_solution (path_str : String) (cfg : ScenarioConfig) : VResult :=
  let r := validate_path path_str cfg
  { is_valid := r.1
    message := r.2.1
    total_mp := r.2.2
    optimal_mp := cfg.optimal_mp
    is_optimal :=
      if r.1 then
        match cfg.optimal_mp with
        | none => false
        | some o => r.2.2 == o
      else false }

/-- A scenario with nothing blocked, nothing collectible, and no declared
optimal cost. -/
def cfgEmpty : ScenarioConfig :=
  { blocked := [], collectibles := [], optimal_mp := none, requires := [] }

/-- Tile string built from a level letter and a decimal index. -/
def tileStr (l : Char) (n : Nat) : String :=
  String.mk (l :: Nat.toDigits 10 n)

example : parse_tile "E24" = Except.ok ('E', 24) := by decide
example : parse_tile "B01" = Except.ok ('B', 1) := by decide
example : parse_tile "B0" = Except.error TileError.invalidRange := by decide
example : parse_tile "Z9" = Except.error TileError.invalidFormat := by decide
example : parse_tile "B1\n" = Except.ok ('B', 1) := by decide
example : parse_tile "E12\n" = Except.ok ('E', 12) := by decide
example : parse_tile "B1\n\n" = Except.error TileError.invalidFormat := by decide
example : parse_tile "B\n1" = Except.error TileError.invalidFormat := by decide
example : parse_tile "B\n" = Except.error TileError.invalidFormat := by decide
example : parse_tile "B1\r\n" = Except.error TileError.invalidFormat := by decide
example : parse_tile "B0\n" = Except.error TileError.invalidRange := by decide
example : is_valid_move "A1" "A1" = (true, "clockwise", 1) := by decide
example : is_valid_move "B3" "A1" = (true, "inward_to_peak", 2) := by decide
example : is_valid_move "B2" "A1" = (true, "inward", 2) := by decide
example : parse_path "E1|D1:key|clear:D2" =
    Except.ok [Action.move "E1", Action.collect "D1" "key", Action.clear "D2"] := by decide
example : validate_path "E1|D1|C1|B1|A1" cfgEmpty =
    (false, "Must collect key before reaching A1", 8) := by decide
example : validate_path "E1|E2|Z9" cfgEmpty =
    (false, "Invalid move from E2 to Z9 at step 3", 1) := by decide
example : tileStr 'B' 3 = "B3" := by decide

/-- Shape part of the tile grammar: one level letter in A..E followed by
one or more decimal digits, optionally followed by a single trailing
newline (which the source regex accepts, `$` matching before a final
`'\n'`).  This is the shape the source regex accepts on ASCII input; the
spec claims the stricter no-leading-zero, no-newline shape
`specNoLeadingZeroTile`. -/
def specTileShapeL : List Char → Bool
  | level :: rest =>
    isTileLevel level && (!(pyBody rest).isEmpty && (pyBody rest).all Char.isDigit)
  | _ => false

/-- String-level wrapper for `specTileShapeL`. -/
def specTileShape (s : String) : Bool :=
  specTileShapeL s.toList

/-- Spec-side acceptance predicate for the amended tile grammar: the shape
of `specTileShapeL` with a decimal value between 1 and the level's capacity. -/
def specTileOkL : List Char → Bool
  | level :: rest =>
    isTileLevel level && (!(pyBody rest).isEmpty && (pyBody rest).all Char.isDigit) &&
      (1 ≤ digitsVal (pyBody rest) && digitsVal (pyBody rest) ≤ (LEVEL_MAX level).getD 0)
  | _ => false

/-- String-level wrapper for `specTileOkL`. -/
def specTileOk (s : String) : Bool :=
  specTileOkL s.toList

/-- The claim's stated grammar `LEVEL[1-9][0-9]*` (no leading zeros) with
the value at most the level's capacity. -/
def specNoLeadingZeroTile (s : String) : Bool :=
  match s.toList with
  | level :: d :: ds =>
    isTileLevel level && ('1' ≤ d && d ≤ '9') && ds.all Char.isDigit &&
      digitsVal (d :: ds) ≤ (LEVEL_MAX level).getD 0
  | _ => false

/-- Whether tile parsing succeeds. -/
def tileParses (s : String) : Bool :=
  match parse_tile s with
  | Except.ok _ => true
  | Except.error _ => false

theorem levelMax_isSome {c : Char} (h : isTileLevel c = true) :
    LEVEL_MAX c = some ((LEVEL_MAX c).getD 0) := by
  have h' : (((c = 'A' ∨ c = 'B') ∨ c = 'C') ∨ c = 'D') ∨ c = 'E' := by
    simpa [isTileLevel, Bool.or_eq_true, decide_eq_true_eq] using h
  rcases h' with (((rfl | rfl) | rfl) | rfl) | rfl <;> rfl

theorem levelMax_not_none {c : Char} (h : isTileLevel c = true) :
    (LEVEL_MAX c).isNone = false := by
  rw [levelMax_isSome h]
  rfl

/-- C1 (counterexample): the tile A1 is valid, yet the checker classifies
the same-tile pair (A1, A1) as a legal clockwise rotation of cost 1 — the
capacity-1 wraparound `from_num == level_max and to_num == 1` fires — so
`classify(t, t)` is not always Illegal. -/
theorem claim1_counterexample :
    parse_tile "A1" = Except.ok ('A', 1) ∧
    is_valid_move "A1" "A1" = (true, "clockwise", 1) ∧
    is_valid_move "A1" "A1" ≠ (false, "invalid_move", 0) :=
  ⟨by decide, by decide, by decide⟩

/-- C1 (amended): for every valid tile t other than A1, classifying the
move from t to itself yields Illegal; for the apex tile A1 the checker
classifies (A1, A1) as a legal clockwise rotation with cost 1. -/
theorem claim1_amended_thm :
    (∀ (l : Char) (n cap : Nat), LEVEL_MAX l = some cap → 1 ≤ n → n ≤ cap →
        (l ≠ 'A' ∨ n ≠ 1) →
        is_valid_move (tileStr l n) (tileStr l n) = (false, "invalid_move", 0)) ∧
    is_valid_move "A1" "A1" = (true, "clockwise", 1) := by
  constructor
  · intro l n cap hcap h1 h2 hne
    unfold LEVEL_MAX at hcap
    split_ifs at hcap with hA hB hC hD hE
    · subst hA
      cases hcap
      interval_cases n
      rcases hne with h | h <;> exact absurd rfl h
    · subst hB
      cases hcap
      interval_cases n <;> decide
    · subst hC
      cases hcap
      interval_cases n <;> decide
    · subst hD
      cases hcap
      interval_cases n <;> decide
    · subst hE
      cases hcap
      interval_cases n <;> decide
  · decide

/-- C1 (witness): the amended theorem applied at the concrete tile B3. -/
theorem claim1_witness :
    is_valid_move "B3" "B3" = (false, "invalid_move", 0) :=
  claim1_amended_thm.1 'B' 3 4 (by decide) (by decide) (by decide)
    (Or.inl (by decide))

/-- C3 (counterexample): the source regex `\d+` accepts leading zeros, so
"B01" parses successfully to (B, 1) even though it does not match the
claim's grammar `LEVEL[1-9][0-9]*`. -/
theorem claim3_counterexample :
    parse_tile "B01" = Except.ok ('B', 1) ∧
    specNoLeadingZeroTile "B01" = false :=
  ⟨by decide, by decide⟩

/-- Characterization of tile parsing at the character-list level: success
coincides with the shape-plus-range predicate, a wrong shape gives the
format error, and a right shape out of range gives the range error. -/
theorem tile_grammar_helper : ∀ cs : List Char,
    ((match parseTileL cs with
      | Except.ok _ => true
      | Except.error _ => false) = specTileOkL cs) ∧
    (specTileShapeL cs = false → parseTileL cs = Except.error TileError.invalidFormat) ∧
    (specTileShapeL cs = true → specTileOkL cs = false →
      parseTileL cs = Except.error TileError.invalidRange) := by
  intro cs
  rcases cs with _ | ⟨c, rest⟩
  · exact ⟨rfl, fun _ => rfl, fun h _ => by cases h⟩
  · simp only [parseTileL, specTileOkL, specTileShapeL]
    by_cases hsh : (isTileLevel c &&
        (!(pyBody rest).isEmpty && (pyBody rest).all Char.isDigit)) = true
    · have hc : isTileLevel c = true := by
        have h' := hsh
        simp only [Bool.and_eq_true] at h'
        exact h'.1
      have hnn : ¬((LEVEL_MAX c).isNone = true) := by
        rw [levelMax_not_none hc]
        exact Bool.false_ne_true
      rw [if_pos hsh, if_neg hnn]
      by_cases hr : (digitsVal (pyBody rest) < 1 ||
          digitsVal (pyBody rest) > (LEVEL_MAX c).getD 0) = true
      · rw [if_pos hr]
        simp only [Bool.or_eq_true, decide_eq_true_eq] at hr
        refine ⟨?_, fun hshape =>
          absurd hsh (by rw [hshape]; exact Bool.false_ne_true), fun _ _ => rfl⟩
        have hfalse : (decide (1 ≤ digitsVal (pyBody rest)) &&
            decide (digitsVal (pyBody rest) ≤ (LEVEL_MAX c).getD 0)) = false := by
          rw [Bool.and_eq_false_iff]
          simp only [decide_eq_false_iff_not]
          omega
        rw [hsh, Bool.true_and, hfalse]
      · rw [if_neg hr]
        simp only [Bool.or_eq_true, decide_eq_true_eq, not_or] at hr
        have htrue : (decide (1 ≤ digitsVal (pyBody rest)) &&
            decide (digitsVal (pyBody rest) ≤ (LEVEL_MAX c).getD 0)) = true := by
          rw [Bool.and_eq_true]
          simp only [decide_eq_true_eq]
          omega
        refine ⟨by rw [hsh, Bool.true_and, htrue], fun hshape => ?_, fun _ hok => ?_⟩
        · exact absurd hsh (by rw [hshape]; exact Bool.false_ne_true)
        · exfalso
          rw [hsh, Bool.true_and, htrue] at hok
          exact Bool.noConfusion hok
    · rw [if_neg hsh]
      have hb : (isTileLevel c &&
          (!(pyBody rest).isEmpty && (pyBody rest).all Char.isDigit)) = false :=
        Bool.eq_false_iff.mpr hsh
      refine ⟨by rw [hb, Bool.false_and], fun _ => rfl, fun hshape _ => ?_⟩
      exact absurd hshape (by rw [hb]; exact Bool.false_ne_true)

/-- C3 (amended): on strings of ASCII characters (the source's
Unicode-aware `\d` additionally accepts non-ASCII decimal digits, which
this model does not cover), tile parsing succeeds exactly on one level
letter in A..E followed by one or more decimal digits — leading zeros
permitted — optionally followed by a single trailing newline (which the
source regex tolerates under `re.match` and `int` strips), with the
digit value between 1 and the level's capacity; a string of the wrong
shape fails with the format error, and a string of the right shape whose
value is 0 or exceeds the capacity fails with the distinct range error. -/
theorem claim3_amended_thm : ∀ s : String,
    s.toList.all (fun c => c.toNat < 128) = true →
    ((tileParses s = specTileOk s) ∧
     (specTileShape s = false → parse_tile s = Except.error TileError.invalidFormat) ∧
     (specTileShape s = true → specTileOk s = false →
       parse_tile s = Except.error TileError.invalidRange)) :=
  fun s _ => tile_grammar_helper s.toList

/-- C3 (witness): the amended theorem applied at "B0" (right shape, value
0, range error) and "@7" (wrong shape, format error), both ASCII. -/
theorem claim3_witness :
    parse_tile "B0" = Except.error TileError.invalidRange ∧
    parse_tile "@7" = Except.error TileError.invalidFormat :=
  ⟨(claim3_amended_thm "B0" (by decide)).2.2 (by decide) (by decide),
   (claim3_amended_thm "@7" (by decide)).2.1 (by decide)⟩

/-- C4: the path "E1|D1|C1|B1|A1" against the empty scenario (no blocked
tiles, no collectibles) is invalid with the missing-key message and a
total of 8 MP — four inward moves at base cost 2, the initial placement
on E1 free. -/
theorem claim4_thm :
    validate_path "E1|D1|C1|B1|A1" cfgEmpty =
      (false, "Must collect key before reaching A1", 8) := by decide

/-- C9: the final verdict is optimal exactly when the path is valid, the
scenario declares an optimal MP, and the accumulated total equals it; an
invalid path or an absent declared optimum always gives is_optimal false. -/
theorem claim9_thm : ∀ (path : String) (cfg : ScenarioConfig),
    (validate_puzzle_solution path cfg).is_optimal = true ↔
      ((validate_puzzle_solution path cfg).is_valid = true ∧
        ∃ m, cfg.optimal_mp = some m ∧
          (validate_puzzle_solution path cfg).total_mp = m) := by
  intro path cfg
  unfold validate_puzzle_solution
  rcases validate_path path cfg with ⟨v, msg, mp⟩
  cases v <;> cases hopt : cfg.optimal_mp <;>
    simp [hopt, beq_iff_eq]

theorem use_dynamite_cases (gs : GameState) (tile : String) :
    (gs.use_dynamite tile = (false, gs)) ∨
    (gs.collected_items.contains "dynamite" = true ∧ gs.dynamite_used = false ∧
      gs.blocked_tiles.contains tile = true ∧
      gs.use_dynamite tile =
        (true, { gs with
                 blocked_tiles := gs.blocked_tiles.filter (fun x => x != tile)
                 dynamite_used := true })) := by
  unfold GameState.use_dynamite
  by_cases h1 : (gs.collected_items.contains "dynamite" && !gs.dynamite_used) = true
  · rw [if_pos h1]
    rw [Bool.and_eq_true, Bool.not_eq_true'] at h1
    by_cases h2 : gs.blocked_tiles.contains tile = true
    · rw [if_pos h2]
      exact Or.inr ⟨h1.1, h1.2, h2, rfl⟩
    · rw [if_neg h2]
      exact Or.inl rfl
  · rw [if_neg h1]
    exact Or.inl rfl

theorem collect_item_cases (gs : GameState) (tile : String) :
    (gs.collect_item tile = (none, gs)) ∨
    (∃ ty, (gs.collect_item tile).1 = some ty ∧
      (gs.collect_item tile).2 =
        { gs with
          collected_items := ty :: gs.collected_items
          has_ladder := if ty = "ladder" then true else gs.has_ladder
          has_key := if ty = "key" then true else gs.has_key }) := by
  unfold GameState.collect_item
  cases hf : gs.collectibles.find?
      (fun p => p.2 == tile && !(gs.collected_items.contains p.1)) with
  | none => exact Or.inl rfl
  | some p =>
    rcases p with ⟨ty, loc⟩
    exact Or.inr ⟨ty, rfl, rfl⟩

/-- The effect of a single successful loop iteration, by action kind:
moves keep the game state, collects record the matching item, clears
consume the dynamite; collects and clears keep position and cost. -/
theorem stepAction_ok_cases {i : Nat} {s u : LoopState} {a : Action}
    (h : stepAction i s a = Except.ok u) :
    (∃ tile, a = Action.move tile ∧ u.gs = s.gs) ∨
    (∃ tile item, a = Action.collect tile item ∧
      (s.gs.collect_item tile).1 = some item ∧
      u.gs = (s.gs.collect_item tile).2 ∧ u.pos = s.pos ∧ u.mp = s.mp) ∨
    (∃ tile, a = Action.clear tile ∧
      (s.gs.use_dynamite tile).1 = true ∧
      u.gs = (s.gs.use_dynamite tile).2 ∧ u.pos = s.pos ∧ u.mp = s.mp) := by
  cases a with
  | move tile =>
    refine Or.inl ⟨tile, rfl, ?_⟩
    simp only [stepAction] at h
    split at h
    · exact Except.noConfusion h
    · split at h
      · split at h
        · split at h
          · exact Except.noConfusion h
          · injection h with h2
            subst h2
            rfl
        · exact Except.noConfusion h
      · split at h
        · injection h with h2
          subst h2
          rfl
        · exact Except.noConfusion h
  | collect tile item =>
    simp only [stepAction] at h
    split at h
    · exact Except.noConfusion h
    · split at h
      · exact Except.noConfusion h
      · rename_i hcond
        injection h with h2
        subst h2
        exact Or.inr (Or.inl ⟨tile, item, rfl, not_not.mp hcond, rfl, rfl, rfl⟩)
  | clear tile =>
    simp only [stepAction] at h
    split at h
    · rename_i h1
      injection h with h2
      subst h2
      exact Or.inr (Or.inr ⟨tile, rfl, h1, rfl, rfl, rfl⟩)
    · split at h
      · exact Except.noConfusion h
      · split at h
        · exact Except.noConfusion h
        · exact Except.noConfusion h

/-- A first move (no current position yet) to an unblocked, well-formed
E-level tile succeeds with no cost. -/
theorem step_move_first {i : Nat} {s : LoopState} {tile : String} {n : Nat}
    (hpos : s.pos = none)
    (hb : s.gs.blocked_tiles.contains tile = false)
    (hpt : parse_tile tile = Except.ok ('E', n)) :
    stepAction i s (Action.move tile) = Except.ok { s with pos := some tile } := by
  have hb' : tile ∉ s.gs.blocked_tiles := by simpa using hb
  simp [stepAction, hpos, hb', hpt]

/-- A move to a currently blocked tile fails with the blocked-tile error
naming the tile and the one-based step index, carrying the cost accrued
so far. -/
theorem step_move_blocked {i : Nat} {s : LoopState} {tile : String}
    (hb : s.gs.blocked_tiles.contains tile = true) :
    stepAction i s (Action.move tile) =
      Except.error ("Cannot move to blocked tile " ++ tile ++ " at step " ++
        toString (i + 1), s.mp) := by
  have hb' : tile ∈ s.gs.blocked_tiles := by simpa using hb
  simp [stepAction, hb']

/-- C2 (counterexample): the path "E1|E2|Z9" contains the token "Z9",
which does not match the tile grammar, yet validation does not fail with a
parse error — parsing succeeds and the bad token is rejected later by the
move check, at step 3, with an accumulated cost of 1, not 0. -/
theorem claim2_counterexample :
    validate_path "E1|E2|Z9" cfgEmpty =
      (false, "Invalid move from E2 to Z9 at step 3", 1) ∧
    (validate_path "E1|E2|Z9" cfgEmpty).2.2 ≠ 0 ∧
    specTileShape "Z9" = false :=
  ⟨by decide, by decide, by decide⟩

/-- C2 (amended): only the empty expression fails at parse time, with the
parse-error message and zero accumulated cost; every nonempty expression
parses into actions with no grammar check, so a token not matching the
grammar is rejected later by the interpreter with whatever cost accrued by
then. -/
theorem claim2_amended_thm : ∀ (s : String) (cfg : ScenarioConfig),
    (s = "" → validate_path s cfg = (false, "Path parsing error: Empty path", 0)) ∧
    (s ≠ "" → ∃ acts, parse_path s = Except.ok acts) := by
  intro s cfg
  constructor
  · intro h
    subst h
    rfl
  · intro h
    refine ⟨(pySplit '|' s.toList).map parseElement, ?_⟩
    unfold parse_path
    rw [if_neg h]

/-- C2 (witness): the amended theorem applied at the empty path and at the
nonempty path "E1". -/
theorem claim2_witness :
    validate_path "" cfgEmpty = (false, "Path parsing error: Empty path", 0) ∧
    ∃ acts, parse_path "E1" = Except.ok acts :=
  ⟨(claim2_amended_thm "" cfgEmpty).1 rfl,
   (claim2_amended_thm "E1" cfgEmpty).2 (by decide)⟩

/-- C6: every B-level tile reaches the apex A1 legally with base cost 2 —
classified "inward" from B1/B2 and "inward_to_peak" from B3/B4 — and the
charged cost is 2 without the ladder and 1 with it in both
classifications alike. -/
theorem claim6_thm : ∀ n : Nat, 1 ≤ n → n ≤ 4 →
    ∃ mt, is_valid_move (tileStr 'B' n) "A1" = (true, mt, 2) ∧
      calculate_mp_cost mt false = 2 ∧
      calculate_mp_cost mt true = 1 ∧
      mt = (if n ≤ 2 then "inward" else "inward_to_peak") := by
  intro n h1 h2
  interval_cases n
  · exact ⟨"inward", by decide, by decide, by decide, by decide⟩
  · exact ⟨"inward", by decide, by decide, by decide, by decide⟩
  · exact ⟨"inward_to_peak", by decide, by decide, by decide, by decide⟩
  · exact ⟨"inward_to_peak", by decide, by decide, by decide, by decide⟩

/-- C6 (witness): the theorem applied at the concrete index 3 (the
inward-to-peak special case). -/
theorem claim6_witness :
    ∃ mt, is_valid_move (tileStr 'B' 3) "A1" = (true, mt, 2) ∧
      calculate_mp_cost mt false = 2 ∧
      calculate_mp_cost mt true = 1 ∧
      mt = (if 3 ≤ 2 then "inward" else "inward_to_peak") :=
  claim6_thm 3 (by decide) (by decide)

/-- C5: a path whose actions all succeed and end at A1 without the key
flag set is rejected with the missing-key message; this check ignores the
scenario's requires list entirely (the verdict is unchanged under any
requires list), and the key flag can only become true through a Collect
action whose declared item is "key". -/
theorem claim5_thm : ∀ (path : String) (cfg : ScenarioConfig)
    (actions : List Action) (s : LoopState) (rs : List String),
    parse_path path = Except.ok actions →
    runActions actions 0 (initState cfg) = Except.ok s →
    s.pos = some "A1" →
    s.gs.has_key = false →
    (validate_path path cfg = (false, "Must collect key before reaching A1", s.mp) ∧
     validate_path path { cfg with requires := rs } = validate_path path cfg ∧
     (∀ (i : Nat) (a : Action) (t u : LoopState), stepAction i t a = Except.ok u →
        u.gs.has_key = true →
        t.gs.has_key = true ∨ ∃ tl, a = Action.collect tl "key")) := by
  intro path cfg actions s rs hparse hrun hpos hkey
  refine ⟨?_, rfl, ?_⟩
  · simp [validate_path, hparse, hrun, hpos, hkey]
  · intro i a t u h hk
    rcases stepAction_ok_cases h with ⟨tl, ht, hgs⟩ |
        ⟨tl, it, ht, hsome, hgs, _, _⟩ | ⟨tl, ht, h1, hgs, _, _⟩
    · exact Or.inl (by rw [← hgs]; exact hk)
    · rcases collect_item_cases t.gs tl with hci | ⟨ty, hty, hgs2⟩
      · rw [hci] at hsome
        exact Option.noConfusion hsome
      · rw [hty] at hsome
        injection hsome with hsome
        by_cases hkeyty : ty = "key"
        · subst hkeyty
          exact Or.inr ⟨tl, by rw [ht, hsome]⟩
        · refine Or.inl ?_
          rw [hgs, hgs2] at hk
          simpa [hkeyty] using hk
    · refine Or.inl ?_
      rcases use_dynamite_cases t.gs tl with hud | ⟨_, _, _, hud⟩
      · rw [hud] at h1
        exact Bool.noConfusion h1
      · rw [hgs, hud] at hk
        exact hk

/-- C5 (witness): the theorem applied at the concrete key-less path
"E1|D1|C1|B1|A1" against the empty scenario. -/
theorem claim5_witness :
    validate_path "E1|D1|C1|B1|A1" cfgEmpty =
      (false, "Must collect key before reaching A1", 8) :=
  (claim5_thm "E1|D1|C1|B1|A1" cfgEmpty
    [Action.move "E1", Action.move "D1", Action.move "C1",
     Action.move "B1", Action.move "A1"]
    { gs := (initState cfgEmpty).gs, pos := some "A1", mp := 8 } []
    (by decide) (by decide) rfl rfl).1

/-- C7: whenever the parsed path opens with a Move to an unblocked
well-formed E-level tile followed by a Move whose target is in the
scenario's blocked set, validation fails with the blocked-destination
error naming that tile and step 2, at total cost 0 — the blocked check
fires before any move-legality classification of that step. -/
theorem claim7_thm : ∀ (path t1 t2 : String) (rest : List Action)
    (cfg : ScenarioConfig) (n : Nat),
    parse_path path = Except.ok (Action.move t1 :: Action.move t2 :: rest) →
    parse_tile t1 = Except.ok ('E', n) →
    cfg.blocked.contains t1 = false →
    cfg.blocked.contains t2 = true →
    validate_path path cfg =
      (false, "Cannot move to blocked tile " ++ t2 ++ " at step " ++ toString 2, 0) := by
  intro path t1 t2 rest cfg n hp hpt hb1 hb2
  have h0 : stepAction 0 (initState cfg) (Action.move t1) =
      Except.ok { initState cfg with pos := some t1 } :=
    step_move_first rfl hb1 hpt
  have h1 : stepAction 1 { initState cfg with pos := some t1 } (Action.move t2) =
      Except.error ("Cannot move to blocked tile " ++ t2 ++ " at step " ++
        toString 2, 0) :=
    step_move_blocked hb2
  have hrun : runActions (Action.move t1 :: Action.move t2 :: rest) 0 (initState cfg) =
      Except.error ("Cannot move to blocked tile " ++ t2 ++ " at step " ++
        toString 2, 0) := by
    simp only [runActions, h0, h1]
  simp [validate_path, hp, hrun]

/-- C7 (witness): the theorem applied at the path "E1|E5" with E5
blocked. -/
theorem claim7_witness :
    validate_path "E1|E5"
      { blocked := ["E5"], collectibles := [], optimal_mp := none, requires := [] } =
      (false, "Cannot move to blocked tile E5 at step 2", 0) :=
  claim7_thm "E1|E5" "E1" "E5" []
    { blocked := ["E5"], collectibles := [], optimal_mp := none, requires := [] } 1
    (by decide) (by decide) (by decide) (by decide)

/-- C10: a successful Collect or Clear never changes the running total_mp,
and conversely any successful step that changes total_mp is a Move — the
accumulated cost comes from Move transitions alone. -/
theorem claim10_thm : ∀ (i : Nat) (s u : LoopState),
    (∀ tile item, stepAction i s (Action.collect tile item) = Except.ok u →
      u.mp = s.mp) ∧
    (∀ tile, stepAction i s (Action.clear tile) = Except.ok u → u.mp = s.mp) ∧
    (∀ a, stepAction i s a = Except.ok u → u.mp ≠ s.mp →
      ∃ tile, a = Action.move tile) := by
  intro i s u
  refine ⟨?_, ?_, ?_⟩
  · intro tile item h
    rcases stepAction_ok_cases h with ⟨t, ht, _⟩ |
        ⟨t, it, ht, _, _, _, hmp⟩ | ⟨t, ht, _⟩
    · exact Action.noConfusion ht
    · exact hmp
    · exact Action.noConfusion ht
  · intro tile h
    rcases stepAction_ok_cases h with ⟨t, ht, _⟩ |
        ⟨t, it, ht, _⟩ | ⟨t, ht, _, _, _, hmp⟩
    · exact Action.noConfusion ht
    · exact Action.noConfusion ht
    · exact hmp
  · intro a h hne
    rcases stepAction_ok_cases h with ⟨t, ht, _⟩ |
        ⟨t, it, ht, _, _, _, hmp⟩ | ⟨t, ht, _, _, _, hmp⟩
    · exact ⟨t, ht⟩
    · exact absurd hmp hne
    · exact absurd hmp hne

/-- A concrete loop state standing on D1 with a key collectible there. -/
def wKeyState : LoopState :=
  { gs := { position := none
            collected_items := []
            blocked_tiles := []
            collectibles := [("key", "D1")]
            has_ladder := false
            has_key := false
            dynamite_used := false }
    pos := some "D1"
    mp := 5 }

/-- The state after collecting the key on D1. -/
def wKeyState' : LoopState :=
  { gs := { position := none
            collected_items := ["key"]
            blocked_tiles := []
            collectibles := [("key", "D1")]
            has_ladder := false
            has_key := true
            dynamite_used := false }
    pos := some "D1"
    mp := 5 }

/-- C10 (witness): the theorem applied at a concrete successful Collect. -/
theorem claim10_witness :
    stepAction 0 wKeyState (Action.collect "D1" "key") = Except.ok wKeyState' ∧
    wKeyState'.mp = wKeyState.mp :=
  ⟨by decide, (claim10_thm 0 wKeyState wKeyState').1 "D1" "key" (by decide)⟩

/-- The state fact established by a successful Clear: the one-shot flag is
burnt and the dynamite is (still) among the collected items. -/
def dynSpent (s : LoopState) : Prop :=
  s.gs.dynamite_used = true ∧ s.gs.collected_items.contains "dynamite" = true

/-- Inversion for one successful loop iteration followed by the rest. -/
theorem runActions_cons_ok {a : Action} {rest : List Action} {i : Nat}
    {s u : LoopState} (h : runActions (a :: rest) i s = Except.ok u) :
    ∃ s1, stepAction i s a = Except.ok s1 ∧
      runActions rest (i + 1) s1 = Except.ok u := by
  simp only [runActions] at h
  cases hstep : stepAction i s a with
  | error e =>
    rw [hstep] at h
    exact Except.noConfusion h
  | ok s1 =>
    rw [hstep] at h
    exact ⟨s1, rfl, h⟩

/-- A successful step either leaves the blocked set and the one-shot flag
untouched, or is the one transition that burns the flag and filters a
single tile out of the blocked set. -/
theorem step_blocked_cases {i : Nat} {s u : LoopState} {a : Action}
    (h : stepAction i s a = Except.ok u) :
    (u.gs.blocked_tiles = s.gs.blocked_tiles ∧
      u.gs.dynamite_used = s.gs.dynamite_used) ∨
    (s.gs.dynamite_used = false ∧ u.gs.dynamite_used = true ∧
      ∃ t, u.gs.blocked_tiles = s.gs.blocked_tiles.filter (fun x => x != t)) := by
  rcases stepAction_ok_cases h with ⟨t, _, hgs⟩ |
      ⟨t, it, _, hsome, hgs, _, _⟩ | ⟨t, _, h1, hgs, _, _⟩
  · exact Or.inl ⟨by rw [hgs], by rw [hgs]⟩
  · rcases collect_item_cases s.gs t with hci | ⟨ty, hty, hgs2⟩
    · rw [hci] at hgs
      exact Or.inl ⟨by rw [hgs], by rw [hgs]⟩
    · rw [hgs2] at hgs
      exact Or.inl ⟨by rw [hgs], by rw [hgs]⟩
  · rcases use_dynamite_cases s.gs t with hud | ⟨hc, hu0, hb, hud⟩
    · rw [hud] at h1
      exact Bool.noConfusion h1
    · rw [hud] at hgs
      exact Or.inr ⟨hu0, by rw [hgs], ⟨t, by rw [hgs]⟩⟩

/-- Along any successful run: once the one-shot flag is burnt the blocked
set is frozen, and in total at most one tile ever leaves the blocked set. -/
theorem run_blocked_lemma : ∀ (acts : List Action) (i : Nat) (s u : LoopState),
    runActions acts i s = Except.ok u →
    (s.gs.dynamite_used = true →
      u.gs.blocked_tiles = s.gs.blocked_tiles ∧ u.gs.dynamite_used = true) ∧
    (∃ t, ∀ x, x ∈ s.gs.blocked_tiles → x ∈ u.gs.blocked_tiles ∨ x = t) := by
  intro acts
  induction acts with
  | nil =>
    intro i s u h
    simp only [runActions] at h
    injection h with h
    subst h
    exact ⟨fun hu => ⟨rfl, hu⟩, ⟨"", fun x hx => Or.inl hx⟩⟩
  | cons a rest ih =>
    intro i s u h
    obtain ⟨s1, hstep, hrest⟩ := runActions_cons_ok h
    obtain ⟨ih1, t, ih2⟩ := ih (i + 1) s1 u hrest
    rcases step_blocked_cases hstep with ⟨hbeq, hueq⟩ | ⟨hu0, hu1, t0, hbf⟩
    · refine ⟨fun hu => ?_, ⟨t, fun x hx => ?_⟩⟩
      · have h2 := ih1 (by rw [hueq]; exact hu)
        exact ⟨by rw [h2.1, hbeq], h2.2⟩
      · exact ih2 x (by rw [hbeq]; exact hx)
    · refine ⟨fun hu => ?_, ⟨t0, fun x hx => ?_⟩⟩
      · rw [hu0] at hu
        exact Bool.noConfusion hu
      · by_cases hxe : x = t0
        · exact Or.inr hxe
        · refine Or.inl ?_
          have hx1 : x ∈ s1.gs.blocked_tiles := by
            rw [hbf]
            refine List.mem_filter.mpr ⟨hx, ?_⟩
            simpa [bne_iff_ne] using hxe
          rw [(ih1 hu1).1]
          exact hx1

/-- C8: a successful Clear establishes the spent state (flag burnt,
dynamite still held); every successful step preserves it; from a spent
state every Clear fails with the "dynamite already used" message no
matter its target or whether the target is blocked; and over any
successful run at most one tile ever leaves the blocked set. -/
theorem claim8_thm :
    (∀ (i : Nat) (s u : LoopState) (target : String),
      stepAction i s (Action.clear target) = Except.ok u → dynSpent u) ∧
    (∀ (i : Nat) (a : Action) (s u : LoopState),
      stepAction i s a = Except.ok u → dynSpent s → dynSpent u) ∧
    (∀ (i : Nat) (s : LoopState) (target : String), dynSpent s →
      stepAction i s (Action.clear target) =
        Except.error ("Cannot clear " ++ target ++ " - dynamite already used",
          s.mp)) ∧
    (∀ (acts : List Action) (i : Nat) (s u : LoopState),
      runActions acts i s = Except.ok u →
      ∃ t, ∀ x, x ∈ s.gs.blocked_tiles → x ∈ u.gs.blocked_tiles ∨ x = t) := by
  refine ⟨?_, ?_, ?_, ?_⟩
  · intro i s u target h
    rcases stepAction_ok_cases h with ⟨t, ht, _⟩ |
        ⟨t, it, ht, _⟩ | ⟨t, ht, h1, hgs, _, _⟩
    · exact Action.noConfusion ht
    · exact Action.noConfusion ht
    · injection ht with ht'
      subst ht'
      rcases use_dynamite_cases s.gs target with hud | ⟨hc, hu0, hb, hud⟩
      · rw [hud] at h1
        exact Bool.noConfusion h1
      · rw [hud] at hgs
        exact ⟨by rw [hgs], by rw [hgs]; exact hc⟩
  · intro i a s u h hds
    rcases stepAction_ok_cases h with ⟨t, ht, hgs⟩ |
        ⟨t, it, ht, hsome, hgs, _, _⟩ | ⟨t, ht, h1, hgs, _, _⟩
    · exact ⟨by rw [hgs]; exact hds.1, by rw [hgs]; exact hds.2⟩
    · rcases collect_item_cases s.gs t with hci | ⟨ty, hty, hgs2⟩
      · rw [hci] at hgs
        exact ⟨by rw [hgs]; exact hds.1, by rw [hgs]; exact hds.2⟩
      · refine ⟨by rw [hgs, hgs2]; exact hds.1, ?_⟩
        rw [hgs, hgs2]
        have hmem : "dynamite" ∈ s.gs.collected_items := by simpa using hds.2
        simpa using List.mem_cons_of_mem ty hmem
    · rcases use_dynamite_cases s.gs t with hud | ⟨hc, hu0, hb, hud⟩
      · rw [hud] at h1
        exact Bool.noConfusion h1
      · exact Bool.noConfusion (hu0 ▸ hds.1)
  · intro i s target hds
    rcases use_dynamite_cases s.gs target with hud | ⟨hc, hu0, hb, hud⟩
    · have hcm : "dynamite" ∈ s.gs.collected_items := by simpa using hds.2
      simp [stepAction, hud, hcm, hds.1]
    · exact Bool.noConfusion (hu0 ▸ hds.1)
  · intro acts i s u h
    exact (run_blocked_lemma acts i s u h).2

/-- A concrete loop state holding unused dynamite with D1 blocked. -/
def wDynState : LoopState :=
  { gs := { position := none
            collected_items := ["dynamite"]
            blocked_tiles := ["D1"]
            collectibles := []
            has_ladder := false
            has_key := false
            dynamite_used := false }
    pos := some "E1"
    mp := 3 }

/-- The state after the successful clear of D1. -/
def wDynState' : LoopState :=
  { gs := { position := none
            collected_items := ["dynamite"]
            blocked_tiles := []
            collectibles := []
            has_ladder := false
            has_key := false
            dynamite_used := true }
    pos := some "E1"
    mp := 3 }

/-- C8 (witness): the theorem applied at a concrete successful clear of
D1, a subsequent clear of a different unblocked tile C7, and the
one-action run consisting of the successful clear. -/
theorem claim8_witness :
    dynSpent wDynState' ∧
    stepAction 1 wDynState' (Action.clear "C7") =
      Except.error ("Cannot clear C7 - dynamite already used", 3) ∧
    (∃ t, ∀ x, x ∈ wDynState.gs.blocked_tiles →
      x ∈ wDynState'.gs.blocked_tiles ∨ x = t) :=
  have h1 : dynSpent wDynState' :=
    claim8_thm.1 0 wDynState wDynState' "D1" (by decide)
  ⟨h1, claim8_thm.2.2.1 1 wDynState' "C7" h1,
   claim8_thm.2.2.2 [Action.clear "D1"] 0 wDynState wDynState' (by decide)⟩

end PyramidBench
